import Mathlib

/-!
Shallow embedding of the devices-api-server repository: the JWT token
service, the auth middleware, and the Customer/Site/Device resource
handlers, together with proofs of the specification claims about them.
The in-memory database models the five GORM tables; the default query
scope excludes soft-deleted rows and `Unscoped` queries include them.
-/

namespace DevicesApi

/-- Unix-style timestamps, in seconds. -/
abbrev Time := Nat

/-- Signing algorithm family of a JWT; the server only accepts the HMAC
family (jwt.SigningMethodHMAC). -/
inductive SigMethod where
  | hmac
  | other
deriving Repr, DecidableEq

/-- Claims carried by a token, mirroring serverutils.Claims. -/
structure JwtClaims where
  userID : String
  username : String
  role : String
  action : String
  issuer : String
  issuedAt : Time
  expiresAt : Option Time
deriving Repr, DecidableEq

/-- A signed token: its claims plus the algorithm and the key it was
signed with (the HMAC signature is abstracted as the signing key). -/
structure Token where
  claims : JwtClaims
  method : SigMethod
  sigKey : String
deriving Repr, DecidableEq

/-- Hexadecimal digit test, as used by uuid.Parse byte decoding. -/
def isHexChar (c : Char) : Bool :=
  (('0' ≤ c) && (c ≤ '9')) || (('a' ≤ c) && (c ≤ 'f')) || (('A' ≤ c) && (c ≤ 'F'))

/-- The canonical 36-character UUID layout checked by uuid.Parse:
dashes at offsets 8, 13, 18 and 23, hex digits elsewhere. -/
def isCanonicalUUIDChars (cs : List Char) : Bool :=
  cs.length == 36 &&
    cs.enum.all fun ic =>
      if ic.1 == 8 || ic.1 == 13 || ic.1 == 18 || ic.1 == 23 then ic.2 == '-'
      else isHexChar ic.2

/-- Mirrors serverutils.IsValidUUID, i.e. the forms accepted by
google/uuid Parse: canonical 36 characters, a case-insensitive
urn prefix form of 45 characters, a 38-character form whose outer two
characters are stripped unchecked, and 32 bare hex digits. -/
def IsValidUUID (s : String) : Bool :=
  let cs := s.data
  if cs.length == 36 then isCanonicalUUIDChars cs
  else if cs.length == 45 then
    ((cs.take 9).map Char.toLower == "urn:uuid:".data) && isCanonicalUUIDChars (cs.drop 9)
  else if cs.length == 38 then isCanonicalUUIDChars ((cs.drop 1).take 36)
  else if cs.length == 32 then cs.all isHexChar
  else false

/-- Character class of the display-name pattern. -/
def isNameChar (c : Char) : Bool :=
  c.isAlpha || c.isDigit || c == '_' || c == ' '

/-- Mirrors serverutils.IsValidString: the anchored pattern of 3 to 20
characters drawn from letters, digits, underscore and space. -/
def IsValidString (s : String) : Bool :=
  (3 ≤ s.data.length) && (s.data.length ≤ 20) && s.data.all isNameChar

/-- Modelled from the spec: the package-level roles allow-list of the
serverutils package is not among the sources; spec section 4.1 fixes the
allowed roles to admin and user. -/
def roles : List String := ["admin", "user"]

/-- Mirrors serverutils.IsValidRole: membership in the roles list. -/
def IsValidRole (role : String) : Bool := roles.contains role

/-- Mirrors serverutils.IsValidAction: membership in the configured
action allow-list, which is not among the sources and is therefore kept
as an explicit parameter (modelled from the spec's configured allow-list). -/
def IsValidAction (actions : List String) (action : String) : Bool :=
  actions.contains action

/-- Mirrors serverutils.GenerateJWT: validates the four inputs in order,
builds the claims (30-day expiry only when requested), and fails when
the signing secret is unset; otherwise returns the signed token. -/
def GenerateJWT (actions : List String) (jwtSecret : String) (now : Time)
    (userID username role action : String) (expire : Bool) : Except String Token :=
  if !IsValidUUID userID then .error "invalid user ID"
  else if !IsValidString username then .error "invalid username"
  else if !IsValidRole role then .error "invalid role"
  else if !IsValidAction actions action then .error "invalid action"
  else
    let claims : JwtClaims :=
      { userID := userID, username := username, role := role, action := action
        issuer := "Rubicon BMS", issuedAt := now
        expiresAt := if expire then some (now + 30 * 24 * 60 * 60) else none }
    if jwtSecret == "" then .error "DEVICES_SERVER_JWT_SECRET is not set"
    else .ok { claims := claims, method := .hmac, sigKey := jwtSecret }

/-- Mirrors serverutils.ValidateJWT: rejects a non-HMAC method, an unset
secret, a wrong signature, and an expired token; otherwise returns the
embedded claims. A token without an expiry claim is never expired. -/
def ValidateJWT (jwtSecret : String) (now : Time) (t : Token) : Except String JwtClaims :=
  if t.method != .hmac then .error "invalid signing method"
  else if jwtSecret == "" then .error "DEVICES_SERVER_JWT_SECRET is not set"
  else if t.sigKey != jwtSecret then .error "signature is invalid"
  else
    match t.claims.expiresAt with
    | some e => if e < now then .error "token is expired" else .ok t.claims
    | none => .ok t.claims

/-- Modelled from the spec: the customers table of pkg/db/models, with a
UUID identity, a name, timestamps, and the soft-delete marker. -/
structure Customer where
  id : String
  name : String
  createdAt : Time
  updatedAt : Time
  deletedAt : Option Time
deriving Repr, DecidableEq

/-- Modelled from the spec: the sites table, owned by one Customer. -/
structure Site where
  id : String
  name : String
  customerID : String
  createdAt : Time
  updatedAt : Time
  deletedAt : Option Time
deriving Repr, DecidableEq

/-- Modelled from the spec: the devices table, owned by one Site, with
the serial number used as the natural lookup key. -/
structure Device where
  id : String
  siteID : String
  gateway : String
  controller : String
  controllerSerialNumber : String
  deviceType : String
  deviceName : String
  deviceSerialNumber : String
  buildingURL : String
  authToken : String
  createdAt : Time
  updatedAt : Time
  deletedAt : Option Time
deriving Repr, DecidableEq

/-- Modelled from the spec: the auth_tokens table recording issued
non-admin tokens. The stored token string is kept as an Option of the
structured token; none models the empty-string zero value. -/
structure AuthToken where
  id : String
  customerID : String
  action : String
  token : Option Token
deriving Repr, DecidableEq

/-- The in-memory database, one list per table, in table order. -/
structure DB where
  customers : List Customer
  sites : List Site
  devices : List Device
  authTokens : List AuthToken
deriving Repr, DecidableEq

/-- Mirrors handlers.FetchCustomerByID: a First query under the default
scope, which excludes soft-deleted rows. -/
def FetchCustomerByID (db : DB) (id : String) : Option Customer :=
  db.customers.find? fun c => c.id == id && c.deletedAt.isNone

/-- Mirrors handlers.FetchCustomerByName: an Unscoped First query, which
includes soft-deleted rows. -/
def FetchCustomerByName (db : DB) (name : String) : Option Customer :=
  db.customers.find? fun c => c.name == name

/-- Mirrors handlers.FetchSiteByID: a First query under the default
scope, which excludes soft-deleted rows. -/
def FetchSiteByID (db : DB) (id : String) : Option Site :=
  db.sites.find? fun s => s.id == id && s.deletedAt.isNone

/-- Mirrors handlers.FetchSiteByName: an Unscoped First query, which
includes soft-deleted rows. -/
def FetchSiteByName (db : DB) (name : String) : Option Site :=
  db.sites.find? fun s => s.name == name

/-- Mirrors handlers.FetchDeviceBySerialNumber: an Unscoped First query
on the serial number, which includes soft-deleted rows. -/
def FetchDeviceBySerialNumber (db : DB) (serialNumber : String) : Option Device :=
  db.devices.find? fun d => d.deviceSerialNumber == serialNumber

/-- Per-request Gin context key/value store; Set prepends so the newest
binding wins, matching map overwrite. -/
structure Ctx where
  keys : List (String × String)
deriving Repr, DecidableEq

/-- Mirrors gin Context.GetString: the bound value, or the empty string
when the key was never set. -/
def Ctx.getString (ctx : Ctx) (k : String) : String :=
  match ctx.keys.find? fun kv => kv.1 == k with
  | some kv => kv.2
  | none => ""

/-- Mirrors gin Context.Set. -/
def Ctx.set (ctx : Ctx) (k v : String) : Ctx := ⟨(k, v) :: ctx.keys⟩

/-- The context a request starts with, before any middleware runs. -/
def emptyCtx : Ctx := ⟨[]⟩

/-- An aborted request: the status, message and error detail written by
serverutils.WriteError before c.Abort. -/
structure ErrResponse where
  status : Nat
  message : String
  error : String
deriving Repr, DecidableEq

/-- Mirrors server.AuthMiddleware: requires the Authorization cookie,
validates the token, and for a non-admin role requires a persisted
AuthToken row matching the claims' (user_id, action) pair (the row is
found by customer_id and action only; its stored token string is only
compared against the empty string). On success it binds customer_id,
role and action into the context. -/
def AuthMiddleware (db : DB) (jwtSecret : String) (now : Time)
    (cookie : Option Token) (ctx : Ctx) : Except ErrResponse Ctx :=
  match cookie with
  | none => .error ⟨401, "Unauthorized", "Please authenticate first"⟩
  | some tok =>
    match ValidateJWT jwtSecret now tok with
    | .error _ => .error ⟨401, "Unauthorized", "Invalid token"⟩
    | .ok claims =>
      let proceed : Bool :=
        if claims.role != "admin" then
          match db.authTokens.find? fun r =>
              r.customerID == claims.userID && r.action == claims.action with
          | some r => r.token.isSome
          | none => false
        else true
      if proceed then
        .ok (((ctx.set "customer_id" claims.userID).set "role" claims.role).set
          "action" claims.action)
      else .error ⟨401, "Unauthorized", "Token not found"⟩

/-- The uniform handler envelope specialised to a data payload type,
mirroring serverutils.Response as handlers fill it. -/
structure HandlerResult (α : Type) where
  status : Nat
  message : String
  data : Option α
  error : Option String
deriving Repr, DecidableEq

/-- A handler reply written through serverutils.WriteJSON. -/
def respJSON (status : Nat) (message : String) (data : α) : HandlerResult α :=
  ⟨status, message, some data, none⟩

/-- A handler reply written through serverutils.WriteError. -/
def respError (status : Nat) (message errMsg : String) : HandlerResult α :=
  ⟨status, message, none, some errMsg⟩

/-- A session-gated route: the handler runs only when AuthMiddleware
succeeds, on the context the middleware bound; a middleware failure is
returned as the final response untouched. -/
def runProtected (db : DB) (jwtSecret : String) (now : Time) (cookie : Option Token)
    (handler : Ctx → HandlerResult α) : HandlerResult α :=
  match AuthMiddleware db jwtSecret now cookie emptyCtx with
  | .error e => ⟨e.status, e.message, none, some e.error⟩
  | .ok ctx => handler ctx

/-- Mirrors handlers.AuthenticateHandler: requires a token in the body,
validates it, and for a non-admin role requires a persisted AuthToken
row whose stored token string equals the presented token exactly; on
success the token is set as the Authorization cookie (returned here). -/
def AuthenticateHandler (db : DB) (jwtSecret : String) (now : Time)
    (bodyToken : Option Token) : Except ErrResponse Token :=
  match bodyToken with
  | none => .error ⟨400, "Invalid request body", "Token field is required"⟩
  | some t =>
    match ValidateJWT jwtSecret now t with
    | .error e => .error ⟨401, "Invalid token", e⟩
    | .ok claims =>
      if claims.role != "admin" then
        match db.authTokens.find? fun r => r.token == some t with
        | some _ => .ok t
        | none => .error ⟨401, "Invalid token", "Token not found"⟩
      else .ok t

/-- The customer payload returned by customer handlers. -/
structure CustomerResponse where
  id : String
  name : String
deriving Repr, DecidableEq

/-- The site payload returned by site handlers. -/
structure SiteResponse where
  id : String
  name : String
  customerID : String
  customerName : String
deriving Repr, DecidableEq

/-- The request body of device create and update. -/
structure DeviceRequest where
  gateway : String
  controller : String
  controllerSerialNumber : String
  deviceType : String
  deviceName : String
  deviceSerialNumber : String
  buildingURL : String
  authToken : String
deriving Repr, DecidableEq

/-- The device payload returned by device handlers. -/
structure DeviceResponse where
  id : String
  customerID : String
  customerName : String
  siteID : String
  siteName : String
  gateway : String
  controller : String
  controllerSerialNumber : String
  deviceType : String
  deviceName : String
  deviceSerialNumber : String
  buildingURL : String
  authToken : String
deriving Repr, DecidableEq

/-- Mirrors handlers.CustomerCreate: a missing or empty name is a 400;
the name is looked up Unscoped; no row inserts a fresh one (201), a
soft-deleted row is restored in place with refreshed timestamps (200),
and an active row is a 400 conflict. The body models BindJSON failure
or an absent name as none. -/
def CustomerCreate (db : DB) (now : Time) (freshID : String)
    (body : Option String) : HandlerResult CustomerResponse × DB :=
  match body with
  | none => (respError 400 "Invalid request body" "Name field is required", db)
  | some name =>
    if name == "" then
      (respError 400 "Invalid request body" "Name field is required", db)
    else
      match FetchCustomerByName db name with
      | none =>
        let newCustomer : Customer :=
          { id := freshID, name := name, createdAt := now, updatedAt := now
            deletedAt := none }
        (respJSON 201 "Customer created" ⟨newCustomer.id, newCustomer.name⟩,
         { db with customers := db.customers ++ [newCustomer] })
      | some customer =>
        if customer.deletedAt.isSome then
          let restored : Customer :=
            { customer with deletedAt := none, createdAt := now, updatedAt := now }
          (respJSON 200 "Customer restored" ⟨restored.id, restored.name⟩,
           { db with customers :=
              db.customers.map fun c => if c.id == customer.id then restored else c })
        else
          (respError 400 "Customer already exists"
            "A customer with this name already exists", db)

/-- Mirrors handlers.CustomerFetchByID: UUID validation, then the
role/ownership check against the customer_id context binding, and only
then the database lookup. -/
def CustomerFetchByID (db : DB) (ctx : Ctx) (id : String) :
    HandlerResult CustomerResponse :=
  if !IsValidUUID id then respError 400 "Invalid customer ID" "Invalid UUID format"
  else
    let role := ctx.getString "role"
    let requesterID := ctx.getString "customer_id"
    if role != "admin" && requesterID != id then
      respError 403 "Forbidden" "Unauthorized access"
    else
      match FetchCustomerByID db id with
      | none => respError 404 "Customer not found" "No customer found with the given ID"
      | some customer => respJSON 200 "Customer fetched" ⟨customer.id, customer.name⟩

/-- Mirrors handlers.SiteCreate: validates the customer path id, the
body, the parent customer (404 if missing), then looks the name up
Unscoped; no row inserts (200), a soft-deleted row restores (200), an
active row conflicts (400). -/
def SiteCreate (db : DB) (now : Time) (freshID : String) (customerID : String)
    (body : Option String) : HandlerResult SiteResponse × DB :=
  if !IsValidUUID customerID then
    (respError 400 "Invalid customer ID" "Invalid UUID format", db)
  else
    match body with
    | none => (respError 400 "Invalid request body" "Name field is required", db)
    | some name =>
      if name == "" then
        (respError 400 "Invalid request body" "Name field is required", db)
      else
        match FetchCustomerByID db customerID with
        | none =>
          (respError 404 "Customer not found" "No customer found with the given ID", db)
        | some customer =>
          match FetchSiteByName db name with
          | none =>
            let newSite : Site :=
              { id := freshID, name := name, customerID := customer.id
                createdAt := now, updatedAt := now, deletedAt := none }
            (respJSON 200 "Site created"
              ⟨newSite.id, newSite.name, customer.id, customer.name⟩,
             { db with sites := db.sites ++ [newSite] })
          | some site =>
            if site.deletedAt.isSome then
              let restored : Site :=
                { site with deletedAt := none, createdAt := now, updatedAt := now }
              (respJSON 200 "Site restored"
                ⟨restored.id, restored.name, customer.id, customer.name⟩,
               { db with sites :=
                  db.sites.map fun s => if s.id == site.id then restored else s })
            else
              (respError 400 "Site already exists"
                "A site with this name already exists", db)

/-- Mirrors handlers.SiteFetchByID, reading the requester id from the
user_id context key exactly as the source does. -/
def SiteFetchByID (db : DB) (ctx : Ctx) (siteID : String) : HandlerResult SiteResponse :=
  let role := ctx.getString "role"
  let requesterID := ctx.getString "user_id"
  if !IsValidUUID siteID then respError 400 "Invalid site ID" "Invalid UUID format"
  else
    match FetchSiteByID db siteID with
    | none => respError 404 "Site not found" "No site found with the given ID"
    | some site =>
      match FetchCustomerByID db site.customerID with
      | none => respError 404 "Customer not found" "No customer found with the given ID"
      | some customer =>
        if role != "admin" && requesterID != customer.id then
          respError 403 "Forbidden" "You are not authorized to access this site"
        else
          respJSON 200 "Site fetched" ⟨site.id, site.name, customer.id, customer.name⟩

/-- String form of the zero uuid.UUID value. -/
def zeroUUID : String := "00000000-0000-0000-0000-000000000000"

/-- The Site reached through the Preload of a device query, or the Go
zero value when the association does not resolve. -/
def preloadedSite (db : DB) (d : Device) : Site :=
  match db.sites.find? fun s => s.id == d.siteID && s.deletedAt.isNone with
  | some s => s
  | none =>
    { id := zeroUUID, name := "", customerID := zeroUUID
      createdAt := 0, updatedAt := 0, deletedAt := none }

/-- The Customer reached through a preloaded Site, or the Go zero value
when the association does not resolve. -/
def preloadedCustomer (db : DB) (s : Site) : Customer :=
  match db.customers.find? fun c => c.id == s.customerID && c.deletedAt.isNone with
  | some c => c
  | none => { id := zeroUUID, name := "", createdAt := 0, updatedAt := 0, deletedAt := none }

/-- Assembles the DeviceResponse payload from a device row and its
preloaded site and customer. -/
def deviceResponseOf (device : Device) (site : Site) (customer : Customer) :
    DeviceResponse :=
  { id := device.id, customerID := customer.id, customerName := customer.name
    siteID := site.id, siteName := site.name, gateway := device.gateway
    controller := device.controller
    controllerSerialNumber := device.controllerSerialNumber
    deviceType := device.deviceType, deviceName := device.deviceName
    deviceSerialNumber := device.deviceSerialNumber
    buildingURL := device.buildingURL, authToken := device.authToken }

/-- Mirrors handlers.DeviceCreate: body bind, path UUID validation,
parent customer and site lookups (404 if missing), the ownership check
between them (403), then the Unscoped serial-number lookup; no row
inserts (200), a soft-deleted row restores (200), an active row
conflicts (400). -/
def DeviceCreate (db : DB) (now : Time) (freshID : String)
    (customerID siteID : String) (body : Option DeviceRequest) :
    HandlerResult DeviceResponse × DB :=
  match body with
  | none => (respError 400 "Invalid request body" "Invalid JSON format", db)
  | some req =>
    if !IsValidUUID customerID then
      (respError 400 "Invalid customer ID" "Invalid UUID format", db)
    else if !IsValidUUID siteID then
      (respError 400 "Invalid site ID" "Invalid UUID format", db)
    else
      match FetchCustomerByID db customerID with
      | none =>
        (respError 404 "Customer not found" "No customer found with the given ID", db)
      | some customer =>
        match FetchSiteByID db siteID with
        | none => (respError 404 "Site not found" "No site found with the given ID", db)
        | some site =>
          if site.customerID != customer.id then
            (respError 403 "Forbidden"
              "There is no site with the given ID for the given customer", db)
          else
            match FetchDeviceBySerialNumber db req.deviceSerialNumber with
            | none =>
              let newDevice : Device :=
                { id := freshID, siteID := site.id, gateway := req.gateway
                  controller := req.controller
                  controllerSerialNumber := req.controllerSerialNumber
                  deviceType := req.deviceType, deviceName := req.deviceName
                  deviceSerialNumber := req.deviceSerialNumber
                  buildingURL := req.buildingURL, authToken := req.authToken
                  createdAt := now, updatedAt := now, deletedAt := none }
              (respJSON 200 "Device created" (deviceResponseOf newDevice site customer),
               { db with devices := db.devices ++ [newDevice] })
            | some device =>
              if device.deletedAt.isSome then
                let restored : Device :=
                  { device with deletedAt := none, createdAt := now, updatedAt := now }
                (respJSON 200 "Device restored" (deviceResponseOf restored site customer),
                 { db with devices :=
                    db.devices.map fun d => if d.id == device.id then restored else d })
              else
                (respError 400 "Device already exists"
                  "A device with this serial number already exists", db)

/-- Mirrors handlers.DeviceFetchBySerialNumber, reading the requester id
from the user_id context key exactly as the source does; the lookup is
Unscoped and the owner is resolved through the preloaded associations. -/
def DeviceFetchBySerialNumber (db : DB) (ctx : Ctx) (serialNumber : String) :
    HandlerResult DeviceResponse :=
  let role := ctx.getString "role"
  let requesterID := ctx.getString "user_id"
  match FetchDeviceBySerialNumber db serialNumber with
  | none => respError 404 "Device not found" "No device found with the given serial number"
  | some device =>
    let site := preloadedSite db device
    let customer := preloadedCustomer db site
    if role != "admin" && customer.id != requesterID then
      respError 403 "Forbidden" "You are not authorized to access this customer's devices"
    else respJSON 200 "Device fetched" (deviceResponseOf device site customer)

/-- The serialised body of serverutils.Response, with the omitempty
fields kept as Options and the data payload left opaque. -/
structure Envelope where
  status : Nat
  message : Option String
  data : Option String
  error : Option String
deriving Repr, DecidableEq

/-- A JSON body the server can write: either the uniform envelope or a
raw object of string key/value pairs (gin.H written directly). -/
inductive GinBody where
  | envelope (e : Envelope)
  | rawPairs (pairs : List (String × String))
deriving Repr, DecidableEq

/-- A wire-level response together with whether writing it also emitted
a server-side error log entry. -/
structure HttpResponse where
  httpStatus : Nat
  body : GinBody
  loggedServerSide : Bool
deriving Repr, DecidableEq

/-- JSON omitempty: an empty string field is left out of the body. -/
def omitempty (s : String) : Option String := if s == "" then none else some s

/-- Mirrors serverutils.WriteJSON at the wire level: the envelope whose
Status field is the same code the response is written with; no error
field, no log entry. -/
def WriteJSON (status : Nat) (message : String) (data : Option String) : HttpResponse :=
  { httpStatus := status
    body := .envelope
      { status := status, message := omitempty message, data := data, error := none }
    loggedServerSide := false }

/-- Mirrors serverutils.WriteError at the wire level: the envelope whose
Status field is the same code the response is written with; no data
field, and the error is logged server-side. -/
def WriteError (status : Nat) (message errMsg : String) : HttpResponse :=
  { httpStatus := status
    body := .envelope
      { status := status, message := omitempty message, data := none
        error := omitempty errMsg }
    loggedServerSide := true }

/-- Mirrors server.AdminMiddleware: compares the Admin-Secret header
(empty when absent) against the configured secret and, on mismatch,
writes a raw gin.H object with error and message keys directly through
c.JSON, bypassing the envelope helpers; none means the request proceeds. -/
def AdminMiddleware (adminSecret : String) (header : Option String) :
    Option HttpResponse :=
  let secret := header.getD ""
  if secret != adminSecret then
    some { httpStatus := 401
           body := .rawPairs [("error", "Unauthorized"), ("message", "Invalid admin secret")]
           loggedServerSide := false }
  else none

/-- The status field a JSON body carries, when it carries one. -/
def bodyStatusField : GinBody → Option Nat
  | .envelope e => some e.status
  | .rawPairs _ => none

/-- The data field a JSON body carries, when it carries one. -/
def bodyDataField : GinBody → Option String
  | .envelope e => e.data
  | .rawPairs _ => none

/-- The error field a JSON body carries, when it carries one. -/
def bodyErrorField : GinBody → Option String
  | .envelope e => e.error
  | .rawPairs ps => (ps.find? fun kv => kv.1 == "error").map fun kv => kv.2

/-- Mirrors handlers.GenerateAdminTokenHandler: issues a token for a
fresh UUID with display name Admin, role admin, action ADMIN, and the
expiry flag false. -/
def GenerateAdminTokenHandler (actions : List String) (jwtSecret : String)
    (now : Time) (freshID : String) : HandlerResult Token :=
  match GenerateJWT actions jwtSecret now freshID "Admin" "admin" "ADMIN" false with
  | .error e => respError 500 "Failed to generate token" e
  | .ok token => respJSON 200 "Token generated successfully" token

/-- The request body of the user-token issuance endpoint. -/
structure GenerateTokenBody where
  customerID : String
  action : String
deriving Repr, DecidableEq

/-- Mirrors handlers.GenerateTokenHandler: validates the body, requires
an existing (non-deleted) customer, issues a user-role token with the
expiry flag false, and persists the AuthToken row for it. -/
def GenerateTokenHandler (actions : List String) (jwtSecret : String) (now : Time)
    (db : DB) (freshRowID : String) (body : Option GenerateTokenBody) :
    HandlerResult AuthToken × DB :=
  match body with
  | none => (respError 400 "Invalid request body" "invalid JSON", db)
  | some b =>
    if b.customerID == "" then
      (respError 400 "Invalid request body" "Customer ID field is required", db)
    else if !IsValidUUID b.customerID then
      (respError 400 "Invalid request body" "Invalid Customer ID", db)
    else if b.action == "" then
      (respError 400 "Invalid request body" "Action field is required", db)
    else if !IsValidAction actions b.action then
      (respError 400 "Invalid request body" "Action not allowed", db)
    else
      match db.customers.find? fun c => c.id == b.customerID && c.deletedAt.isNone with
      | none => (respError 404 "Customer not found" "Customer does not exist", db)
      | some customer =>
        match GenerateJWT actions jwtSecret now b.customerID customer.name "user"
            b.action false with
        | .error e => (respError 500 "Failed to generate token" e, db)
        | .ok token =>
          let row : AuthToken :=
            { id := freshRowID, customerID := customer.id, action := b.action
              token := some token }
          (respJSON 200 "Token generated successfully" row,
           { db with authTokens := db.authTokens ++ [row] })

/-- First queries return the unique matching row when one exists. -/
theorem find?_eq_some_of_unique {α : Type} {l : List α} {p : α → Bool} {a : α}
    (ha : a ∈ l) (hpa : p a = true) (huniq : ∀ b ∈ l, p b = true → b = a) :
    l.find? p = some a := by
  induction l with
  | nil => cases ha
  | cons x xs ih =>
    by_cases hx : p x = true
    · have hxa : x = a := huniq x (List.mem_cons_self x xs) hx
      rw [List.find?_cons_of_pos _ hx, hxa]
    · have hax : a ∈ xs := by
        rcases List.mem_cons.mp ha with h | h
        · exact absurd (h ▸ hpa) hx
        · exact h
      rw [List.find?_cons_of_neg _ hx]
      exact ih hax fun b hb hpb => huniq b (List.mem_cons_of_mem _ hb) hpb

/-- A fixed sample uuid string, used as a customer identity. -/
def uuidA : String := "11111111-1111-1111-1111-111111111111"

/-- A second sample uuid string, used as a site or foreign identity. -/
def uuidB : String := "22222222-2222-2222-2222-222222222222"

/-- A third sample uuid string, used as a device or fresh identity. -/
def uuidC : String := "33333333-3333-3333-3333-333333333333"

/-- A fourth sample uuid string. -/
def uuidD : String := "44444444-4444-4444-4444-444444444444"

/-- The empty database. -/
def emptyDB : DB := ⟨[], [], [], []⟩

/-- Claim C7: GenerateJWT returns an error exactly when the subject id
is not a well-formed UUID, the display name fails the 3-to-20-character
name pattern, the role is outside the allowed set, the action is outside
the configured allow-list, or the signing secret is unset; on every
other input it returns a signed token. -/
theorem claim7 (actions : List String) (jwtSecret : String) (now : Time)
    (userID username role action : String) (expire : Bool) :
    ((∃ e, GenerateJWT actions jwtSecret now userID username role action expire =
        .error e) ↔
      (IsValidUUID userID = false ∨ IsValidString username = false ∨
        IsValidRole role = false ∨ IsValidAction actions action = false ∨
        jwtSecret = "")) ∧
    ((∃ t, GenerateJWT actions jwtSecret now userID username role action expire =
        .ok t) ↔
      ¬(IsValidUUID userID = false ∨ IsValidString username = false ∨
        IsValidRole role = false ∨ IsValidAction actions action = false ∨
        jwtSecret = "")) := by
  unfold GenerateJWT
  by_cases h1 : IsValidUUID userID <;> by_cases h2 : IsValidString username <;>
    by_cases h3 : IsValidRole role <;> by_cases h4 : IsValidAction actions action <;>
    by_cases h5 : jwtSecret = "" <;>
    simp [h1, h2, h3, h4, h5]

/-- Claim C5: for a non-admin caller, fetching a customer by a
well-formed id different from the caller's bound subject id yields 403,
and the response does not depend on the database contents at all: the
role/ownership check is decided before any lookup. -/
theorem claim5 (db db' : DB) (ctx : Ctx) (id : String)
    (h1 : IsValidUUID id = true)
    (h2 : ctx.getString "role" ≠ "admin")
    (h3 : ctx.getString "customer_id" ≠ id) :
    CustomerFetchByID db ctx id = respError 403 "Forbidden" "Unauthorized access" ∧
    CustomerFetchByID db ctx id = CustomerFetchByID db' ctx id := by
  have hbody : ∀ dbx : DB,
      CustomerFetchByID dbx ctx id = respError 403 "Forbidden" "Unauthorized access" := by
    intro dbx
    unfold CustomerFetchByID
    simp [h1, h2, h3]
  exact ⟨hbody db, by rw [hbody db, hbody db']⟩

/-- A database holding only the customer the C5 witness asks for, so the
response can be compared against the empty database. -/
def dbWitC5 : DB := ⟨[⟨uuidB, "Acme Co", 0, 0, none⟩], [], [], []⟩

/-- The request context of a non-admin session bound to uuidA. -/
def ctxUserA : Ctx := ⟨[("role", "user"), ("customer_id", uuidA)]⟩

/-- Witness for claim C5: the theorem applied at a concrete non-admin
context and a foreign id that exists in one database and not in the
other, showing the identical 403 both ways. -/
theorem claim5_witness :
    CustomerFetchByID dbWitC5 ctxUserA uuidB =
      respError 403 "Forbidden" "Unauthorized access" ∧
    CustomerFetchByID dbWitC5 ctxUserA uuidB =
      CustomerFetchByID emptyDB ctxUserA uuidB :=
  claim5 dbWitC5 emptyDB ctxUserA uuidB (by decide) (by decide) (by decide)

/-- Claim C2: on a session-gated route, a validly signed non-admin token
with no persisted AuthToken row matching its (subject, action) pair is
rejected with 401 Token not found, and the downstream handler is never
invoked: the response is the same for every handler. -/
theorem claim2 (db : DB) (jwtSecret : String) (now : Time) (tok : Token)
    (claims : JwtClaims)
    (hv : ValidateJWT jwtSecret now tok = .ok claims)
    (hr : claims.role ≠ "admin")
    (hf : db.authTokens.find?
      (fun r => r.customerID == claims.userID && r.action == claims.action) = none) :
    ∀ (α : Type) (handler : Ctx → HandlerResult α),
      runProtected db jwtSecret now (some tok) handler =
        ⟨401, "Unauthorized", none, some "Token not found"⟩ := by
  intro α handler
  unfold runProtected AuthMiddleware
  simp only [hv, hf, bne_iff_ne, ne_eq, hr, not_false_eq_true, if_true, if_false]
  simp

/-- A token as the middleware sees it for the C2 and C9 witnesses: a
user-role token scoped to uuidA and the READ action, HMAC-signed with
the secret s3cret. -/
def tokUserA : Token :=
  { claims :=
    { userID := uuidA, username := "Acme Co", role := "user", action := "READ"
      issuer := "Rubicon BMS", issuedAt := 0, expiresAt := none }
    method := .hmac, sigKey := "s3cret" }

/-- Witness for claim C2: the token of tokUserA against a database whose
auth_tokens table is empty (its backing row deleted), at a concrete
handler that would answer 200. -/
theorem claim2_witness :
    runProtected emptyDB "s3cret" 5 (some tokUserA)
      (fun _ => respJSON 200 "Customer fetched" "payload") =
      ⟨401, "Unauthorized", none, some "Token not found"⟩ :=
  claim2 emptyDB "s3cret" 5 tokUserA tokUserA.claims (by rfl) (by decide)
    (by decide) String (fun _ => respJSON 200 "Customer fetched" "payload")

/-- Claim C9: the middleware accepts a validly signed non-admin token as
soon as some AuthToken row matches its (subject, action) pair, without
comparing the stored token string to the presented one, while the
authenticate endpoint requires a row storing exactly the presented
token: under one database the same token passes the middleware and is
rejected by authenticate. -/
theorem claim9 (db : DB) (jwtSecret : String) (now : Time) (tok : Token)
    (claims : JwtClaims) (row : AuthToken)
    (hv : ValidateJWT jwtSecret now tok = .ok claims)
    (hr : claims.role ≠ "admin")
    (hf : db.authTokens.find?
      (fun r => r.customerID == claims.userID && r.action == claims.action) = some row)
    (hrow : row.token.isSome = true)
    (hexact : db.authTokens.find? (fun r => r.token == some tok) = none) :
    AuthMiddleware db jwtSecret now (some tok) emptyCtx =
      .ok (((emptyCtx.set "customer_id" claims.userID).set "role" claims.role).set
        "action" claims.action) ∧
    AuthenticateHandler db jwtSecret now (some tok) =
      .error ⟨401, "Invalid token", "Token not found"⟩ := by
  constructor
  · unfold AuthMiddleware
    simp only [hv, hf, bne_iff_ne, ne_eq, hr, not_false_eq_true, if_true, hrow]
  · unfold AuthenticateHandler
    simp only [hv, hexact, bne_iff_ne, ne_eq, hr, not_false_eq_true, if_true]

/-- An AuthToken row for uuidA and READ whose stored token is an older
token than tokUserA (different issued-at), modelling a superseded
session token that is still persisted. -/
def rowOldUserA : AuthToken :=
  { id := uuidD, customerID := uuidA, action := "READ"
    token := some { tokUserA with claims := { tokUserA.claims with issuedAt := 77 } } }

/-- The database holding only the superseded row for uuidA and READ. -/
def dbSuperseded : DB := ⟨[], [], [], [rowOldUserA]⟩

/-- Witness for claim C9: the fresh token tokUserA passes the middleware
because the superseded row matches its subject and action, yet the
authenticate endpoint rejects it for want of an exact stored match. -/
theorem claim9_witness :
    AuthMiddleware dbSuperseded "s3cret" 5 (some tokUserA) emptyCtx =
      .ok (((emptyCtx.set "customer_id" tokUserA.claims.userID).set "role"
        tokUserA.claims.role).set "action" tokUserA.claims.action) ∧
    AuthenticateHandler dbSuperseded "s3cret" 5 (some tokUserA) =
      .error ⟨401, "Invalid token", "Token not found"⟩ :=
  claim9 dbSuperseded "s3cret" 5 tokUserA tokUserA.claims rowOldUserA (by rfl)
    (by decide) (by decide) (by decide) (by decide)

/-- A database where customer uuidA owns site uuidB which holds the
device with serial number SN1, and the auth_tokens table backs the
session of tokUserA. -/
def dbOwnership : DB :=
  ⟨[⟨uuidA, "Acme Co", 0, 0, none⟩],
   [⟨uuidB, "Main Site", uuidA, 0, 0, none⟩],
   [⟨uuidC, uuidB, "GW", "CTRL", "CSN", "TYPE", "DEV", "SN1", "URL", "TOK", 0, 0, none⟩],
   [⟨uuidD, uuidA, "READ", some tokUserA⟩]⟩

/-- The context AuthMiddleware binds for the session of tokUserA: the
subject id is stored under the customer_id key. -/
def ctxBoundA : Ctx := ⟨[("action", "READ"), ("role", "user"), ("customer_id", uuidA)]⟩

/-- Claim C1 fails on the code: the middleware binds the subject id
under the customer_id context key, but SiteFetchByID and the device
fetch read the user_id key, which is never set, so the requester id is
always empty and even the owning customer receives 403 instead of 200.
This theorem evaluates the code at the failing input: a non-admin
session for uuidA fetching the site and the device that uuidA owns. -/
theorem claim1_code_bug :
    AuthMiddleware dbOwnership "s3cret" 5 (some tokUserA) emptyCtx = .ok ctxBoundA ∧
    ctxBoundA.getString "customer_id" = uuidA ∧
    ctxBoundA.getString "user_id" = "" ∧
    (FetchSiteByID dbOwnership uuidB).map Site.customerID = some uuidA ∧
    (SiteFetchByID dbOwnership ctxBoundA uuidB).status = 403 ∧
    (SiteFetchByID dbOwnership ctxBoundA uuidB).message = "Forbidden" ∧
    (DeviceFetchBySerialNumber dbOwnership ctxBoundA "SN1").status = 403 ∧
    (DeviceFetchBySerialNumber dbOwnership ctxBoundA "SN1").message = "Forbidden" := by
  refine ⟨rfl, by decide, by decide, by decide, ?_, ?_, ?_, ?_⟩ <;> decide

/-- Claim C6: the device lookup by serial number ignores the soft-delete
marker, so it finds the unique row with a given serial whether deleted
or active, whereas the default customer and site fetch-by-id paths never
return a soft-deleted row. -/
theorem claim6 :
    (∀ (db : DB) (device : Device) (s : String),
      device ∈ db.devices → device.deviceSerialNumber = s →
      (∀ d ∈ db.devices, d.deviceSerialNumber = s → d = device) →
      FetchDeviceBySerialNumber db s = some device) ∧
    (∀ (db : DB) (customer : Customer),
      customer ∈ db.customers → customer.deletedAt.isSome = true →
      (∀ c ∈ db.customers, c.id = customer.id → c = customer) →
      FetchCustomerByID db customer.id = none) ∧
    (∀ (db : DB) (site : Site),
      site ∈ db.sites → site.deletedAt.isSome = true →
      (∀ s ∈ db.sites, s.id = site.id → s = site) →
      FetchSiteByID db site.id = none) := by
  refine ⟨?_, ?_, ?_⟩
  · intro db device s hmem hser huniq
    unfold FetchDeviceBySerialNumber
    exact find?_eq_some_of_unique hmem (by simp [hser])
      fun b hb hpb => huniq b hb (by simpa using hpb)
  · intro db customer hmem hdel huniq
    unfold FetchCustomerByID
    rw [List.find?_eq_none]
    intro c hc hpc
    simp only [Bool.and_eq_true, beq_iff_eq, Option.isNone_iff_eq_none] at hpc
    have hceq : c = customer := huniq c hc hpc.1
    rw [hceq] at hpc
    rw [hpc.2] at hdel
    simp at hdel
  · intro db site hmem hdel huniq
    unfold FetchSiteByID
    rw [List.find?_eq_none]
    intro s hs hps
    simp only [Bool.and_eq_true, beq_iff_eq, Option.isNone_iff_eq_none] at hps
    have hseq : s = site := huniq s hs hps.1
    rw [hseq] at hps
    rw [hps.2] at hdel
    simp at hdel

/-- A soft-deleted device row with serial SN9. -/
def devDeleted : Device :=
  ⟨uuidC, uuidB, "GW", "CTRL", "CSN", "TYPE", "DEV", "SN9", "URL", "TOK", 0, 0, some 9⟩

/-- A soft-deleted customer row. -/
def custDeleted : Customer := ⟨uuidA, "Old Co", 0, 0, some 9⟩

/-- A soft-deleted site row. -/
def siteDeleted : Site := ⟨uuidB, "Old Site", uuidA, 0, 0, some 9⟩

/-- A database in which every row is soft-deleted. -/
def dbDeleted : DB := ⟨[custDeleted], [siteDeleted], [devDeleted], []⟩

/-- Witness for claim C6: over a database of soft-deleted rows, the
serial lookup still finds the device, while the customer and site
fetch-by-id paths find nothing. -/
theorem claim6_witness :
    FetchDeviceBySerialNumber dbDeleted "SN9" = some devDeleted ∧
    FetchCustomerByID dbDeleted custDeleted.id = none ∧
    FetchSiteByID dbDeleted siteDeleted.id = none :=
  ⟨claim6.1 dbDeleted devDeleted "SN9" (by decide) (by decide) (by decide),
   claim6.2.1 dbDeleted custDeleted (by decide) (by decide) (by decide),
   claim6.2.2 dbDeleted siteDeleted (by decide) (by decide) (by decide)⟩

/-- Claim C4: creating a customer whose name already exists on an active
row is a 400 conflict that leaves the database unchanged, and creating
the same name twice without an intervening delete yields 201 then 400. -/
theorem claim4 (db : DB) (now now2 : Time) (fid fid2 name : String)
    (hn : name ≠ "") :
    (∀ customer, FetchCustomerByName db name = some customer →
      customer.deletedAt = none →
      CustomerCreate db now fid (some name) =
        (respError 400 "Customer already exists"
          "A customer with this name already exists", db)) ∧
    (FetchCustomerByName db name = none →
      (CustomerCreate db now fid (some name)).1 =
        respJSON 201 "Customer created" ⟨fid, name⟩ ∧
      CustomerCreate (CustomerCreate db now fid (some name)).2 now2 fid2 (some name) =
        (respError 400 "Customer already exists"
          "A customer with this name already exists",
         (CustomerCreate db now fid (some name)).2)) := by
  have hbeq : (name == "") = false := beq_eq_false_iff_ne.mpr hn
  constructor
  · intro customer hc hact
    simp [CustomerCreate, hbeq, hc, hact]
  · intro hnone
    have hfst : CustomerCreate db now fid (some name) =
        (respJSON 201 "Customer created" ⟨fid, name⟩,
         { db with customers := db.customers ++
            [⟨fid, name, now, now, none⟩] }) := by
      simp [CustomerCreate, hbeq, hnone]
    refine ⟨by rw [hfst], ?_⟩
    rw [hfst]
    have hfind : FetchCustomerByName
        { db with customers := db.customers ++ [⟨fid, name, now, now, none⟩] } name =
        some ⟨fid, name, now, now, none⟩ := by
      unfold FetchCustomerByName at hnone ⊢
      simp [List.find?_append, hnone]
    simp [CustomerCreate, hbeq, hfind]

/-- Witness for claim C4: both conjuncts at concrete inputs: an active
duplicate - Acme Co in dbWitC5 - conflicts without inserting, and a
fresh create on the empty database answers 201 then conflicts on the
repeat. -/
theorem claim4_witness :
    (CustomerCreate dbWitC5 3 uuidC (some "Acme Co") =
      (respError 400 "Customer already exists"
        "A customer with this name already exists", dbWitC5)) ∧
    ((CustomerCreate emptyDB 3 uuidC (some "Acme Co")).1 =
      respJSON 201 "Customer created" ⟨uuidC, "Acme Co"⟩ ∧
     CustomerCreate (CustomerCreate emptyDB 3 uuidC (some "Acme Co")).2 4 uuidD
        (some "Acme Co") =
      (respError 400 "Customer already exists"
        "A customer with this name already exists",
       (CustomerCreate emptyDB 3 uuidC (some "Acme Co")).2)) :=
  ⟨(claim4 dbWitC5 3 4 uuidC uuidD "Acme Co" (by decide)).1
      ⟨uuidB, "Acme Co", 0, 0, none⟩ (by decide) rfl,
   (claim4 emptyDB 3 4 uuidC uuidD "Acme Co" (by decide)).2 (by decide)⟩

/-- Rows touched by an in-place update keyed on an id: every row of the
new table carrying the key is the updated row, and the updated row is
present whenever a row carried the key before. -/
theorem map_replace_spec {α : Type} (l : List α) (key : α → String) (k : String)
    (repl : α) (a : α) (ha : a ∈ l) (hak : key a = k) :
    repl ∈ l.map (fun x => if key x == k then repl else x) ∧
    ∀ b ∈ l.map (fun x => if key x == k then repl else x), key b = k → b = repl := by
  constructor
  · simpa [hak] using List.mem_map_of_mem (fun x => if key x == k then repl else x) ha
  · intro b hb hbk
    rcases List.mem_map.mp hb with ⟨y, _, hfy⟩
    by_cases hy : (key y == k) = true
    · rw [if_pos hy] at hfy
      exact hfy.symm
    · rw [if_neg hy] at hfy
      subst hfy
      exact absurd (beq_iff_eq.mpr hbk) hy

/-- Claim C3: creating with the natural key of a soft-deleted row
restores it: the response is 200 with a restored message and carries the
row's original UUID, and in the new table every row with that UUID has
the delete marker cleared and both timestamps set to the current time.
Stated for Customer (key name), Site (key name) and Device (key serial
number). -/
theorem claim3 :
    (∀ (db : DB) (now : Time) (fid name : String) (customer : Customer),
      name ≠ "" →
      FetchCustomerByName db name = some customer →
      customer.deletedAt.isSome = true →
      (CustomerCreate db now fid (some name)).1 =
        respJSON 200 "Customer restored" ⟨customer.id, customer.name⟩ ∧
      { customer with deletedAt := none, createdAt := now, updatedAt := now } ∈
        (CustomerCreate db now fid (some name)).2.customers ∧
      ∀ c ∈ (CustomerCreate db now fid (some name)).2.customers, c.id = customer.id →
        c = { customer with deletedAt := none, createdAt := now, updatedAt := now }) ∧
    (∀ (db : DB) (now : Time) (fid cid name : String) (customer : Customer)
        (site : Site),
      IsValidUUID cid = true → name ≠ "" →
      FetchCustomerByID db cid = some customer →
      FetchSiteByName db name = some site →
      site.deletedAt.isSome = true →
      (SiteCreate db now fid cid (some name)).1 =
        respJSON 200 "Site restored" ⟨site.id, site.name, customer.id, customer.name⟩ ∧
      { site with deletedAt := none, createdAt := now, updatedAt := now } ∈
        (SiteCreate db now fid cid (some name)).2.sites ∧
      ∀ s ∈ (SiteCreate db now fid cid (some name)).2.sites, s.id = site.id →
        s = { site with deletedAt := none, createdAt := now, updatedAt := now }) ∧
    (∀ (db : DB) (now : Time) (fid cid sid : String) (req : DeviceRequest)
        (customer : Customer) (site : Site) (device : Device),
      IsValidUUID cid = true → IsValidUUID sid = true →
      FetchCustomerByID db cid = some customer →
      FetchSiteByID db sid = some site →
      site.customerID = customer.id →
      FetchDeviceBySerialNumber db req.deviceSerialNumber = some device →
      device.deletedAt.isSome = true →
      (DeviceCreate db now fid cid sid (some req)).1 =
        respJSON 200 "Device restored"
          (deviceResponseOf
            { device with deletedAt := none, createdAt := now, updatedAt := now }
            site customer) ∧
      { device with deletedAt := none, createdAt := now, updatedAt := now } ∈
        (DeviceCreate db now fid cid sid (some req)).2.devices ∧
      ∀ d ∈ (DeviceCreate db now fid cid sid (some req)).2.devices, d.id = device.id →
        d = { device with deletedAt := none, createdAt := now, updatedAt := now }) := by
  refine ⟨?_, ?_, ?_⟩
  · intro db now fid name customer hn hc hdel
    have hbeq : (name == "") = false := beq_eq_false_iff_ne.mpr hn
    have hcomp : CustomerCreate db now fid (some name) =
        (respJSON 200 "Customer restored" ⟨customer.id, customer.name⟩,
         { db with customers := db.customers.map fun c =>
            if c.id == customer.id then
              { customer with deletedAt := none, createdAt := now, updatedAt := now }
            else c }) := by
      simp [CustomerCreate, hbeq, hc, hdel]
    have hmem : customer ∈ db.customers := List.mem_of_find?_eq_some hc
    have hspec := map_replace_spec db.customers Customer.id customer.id
      { customer with deletedAt := none, createdAt := now, updatedAt := now }
      customer hmem rfl
    rw [hcomp]
    exact ⟨rfl, hspec.1, hspec.2⟩
  · intro db now fid cid name customer site hcid hn hcust hsite hdel
    have hbeq : (name == "") = false := beq_eq_false_iff_ne.mpr hn
    have hcomp : SiteCreate db now fid cid (some name) =
        (respJSON 200 "Site restored"
          ⟨site.id, site.name, customer.id, customer.name⟩,
         { db with sites := db.sites.map fun s =>
            if s.id == site.id then
              { site with deletedAt := none, createdAt := now, updatedAt := now }
            else s }) := by
      simp [SiteCreate, hcid, hbeq, hcust, hsite, hdel]
    have hmem : site ∈ db.sites := List.mem_of_find?_eq_some hsite
    have hspec := map_replace_spec db.sites Site.id site.id
      { site with deletedAt := none, createdAt := now, updatedAt := now }
      site hmem rfl
    rw [hcomp]
    exact ⟨rfl, hspec.1, hspec.2⟩
  · intro db now fid cid sid req customer site device hcid hsid hcust hsite hown
      hdev hdel
    have hcomp : DeviceCreate db now fid cid sid (some req) =
        (respJSON 200 "Device restored"
          (deviceResponseOf
            { device with deletedAt := none, createdAt := now, updatedAt := now }
            site customer),
         { db with devices := db.devices.map fun d =>
            if d.id == device.id then
              { device with deletedAt := none, createdAt := now, updatedAt := now }
            else d }) := by
      simp [DeviceCreate, hcid, hsid, hcust, hsite, hown, hdev, hdel]
    have hmem : device ∈ db.devices := List.mem_of_find?_eq_some hdev
    have hspec := map_replace_spec db.devices Device.id device.id
      { device with deletedAt := none, createdAt := now, updatedAt := now }
      device hmem rfl
    rw [hcomp]
    exact ⟨rfl, hspec.1, hspec.2⟩

/-- A database holding one soft-deleted customer named Acme Co. -/
def dbRestC : DB := ⟨[⟨uuidA, "Acme Co", 0, 0, some 9⟩], [], [], []⟩

/-- A database holding an active customer and its soft-deleted site. -/
def dbRestS : DB :=
  ⟨[⟨uuidA, "Acme Co", 0, 0, none⟩], [⟨uuidB, "Main Site", uuidA, 0, 0, some 9⟩], [], []⟩

/-- A database holding an active customer and site and a soft-deleted
device with serial SN9 on that site. -/
def dbRestD : DB :=
  ⟨[⟨uuidA, "Acme Co", 0, 0, none⟩], [⟨uuidB, "Main Site", uuidA, 0, 0, none⟩],
   [⟨uuidC, uuidB, "GW", "CTRL", "CSN", "TYPE", "DEV", "SN9", "URL", "TOK", 0, 0, some 9⟩],
   []⟩

/-- The device request body whose serial number is SN9. -/
def reqSN9 : DeviceRequest := ⟨"GW", "CTRL", "CSN", "TYPE", "DEV", "SN9", "URL", "TOK"⟩

/-- Witness for claim C3: all three restore paths applied at concrete
soft-deleted rows, with the original UUIDs coming back in the
responses and the restored rows landing in the tables. -/
theorem claim3_witness :
    ((CustomerCreate dbRestC 7 uuidD (some "Acme Co")).1 =
      respJSON 200 "Customer restored" ⟨uuidA, "Acme Co"⟩ ∧
     (⟨uuidA, "Acme Co", 7, 7, none⟩ : Customer) ∈
       (CustomerCreate dbRestC 7 uuidD (some "Acme Co")).2.customers ∧
     ∀ c ∈ (CustomerCreate dbRestC 7 uuidD (some "Acme Co")).2.customers,
       c.id = uuidA → c = ⟨uuidA, "Acme Co", 7, 7, none⟩) ∧
    ((SiteCreate dbRestS 7 uuidD uuidA (some "Main Site")).1 =
      respJSON 200 "Site restored" ⟨uuidB, "Main Site", uuidA, "Acme Co"⟩ ∧
     (⟨uuidB, "Main Site", uuidA, 7, 7, none⟩ : Site) ∈
       (SiteCreate dbRestS 7 uuidD uuidA (some "Main Site")).2.sites ∧
     ∀ s ∈ (SiteCreate dbRestS 7 uuidD uuidA (some "Main Site")).2.sites,
       s.id = uuidB → s = ⟨uuidB, "Main Site", uuidA, 7, 7, none⟩) ∧
    ((DeviceCreate dbRestD 7 uuidD uuidA uuidB (some reqSN9)).1 =
      respJSON 200 "Device restored"
        (deviceResponseOf
          ⟨uuidC, uuidB, "GW", "CTRL", "CSN", "TYPE", "DEV", "SN9", "URL", "TOK", 7, 7, none⟩
          ⟨uuidB, "Main Site", uuidA, 0, 0, none⟩ ⟨uuidA, "Acme Co", 0, 0, none⟩) ∧
     (⟨uuidC, uuidB, "GW", "CTRL", "CSN", "TYPE", "DEV", "SN9", "URL", "TOK", 7, 7, none⟩ :
        Device) ∈ (DeviceCreate dbRestD 7 uuidD uuidA uuidB (some reqSN9)).2.devices ∧
     ∀ d ∈ (DeviceCreate dbRestD 7 uuidD uuidA uuidB (some reqSN9)).2.devices,
       d.id = uuidC →
       d = ⟨uuidC, uuidB, "GW", "CTRL", "CSN", "TYPE", "DEV", "SN9", "URL", "TOK", 7, 7, none⟩) :=
  ⟨claim3.1 dbRestC 7 uuidD "Acme Co" ⟨uuidA, "Acme Co", 0, 0, some 9⟩
     (by decide) (by decide) (by decide),
   claim3.2.1 dbRestS 7 uuidD uuidA "Main Site" ⟨uuidA, "Acme Co", 0, 0, none⟩
     ⟨uuidB, "Main Site", uuidA, 0, 0, some 9⟩
     (by decide) (by decide) (by decide) (by decide) (by decide),
   claim3.2.2 dbRestD 7 uuidD uuidA uuidB reqSN9 ⟨uuidA, "Acme Co", 0, 0, none⟩
     ⟨uuidB, "Main Site", uuidA, 0, 0, none⟩
     ⟨uuidC, uuidB, "GW", "CTRL", "CSN", "TYPE", "DEV", "SN9", "URL", "TOK", 0, 0, some 9⟩
     (by decide) (by decide) (by decide) (by decide) (by decide) (by decide) (by decide)⟩

/-- Counterexample for claim C8: the admin-secret middleware's 401 is a
response the server emits whose body is a raw object with error and
message keys only; it carries no status field at all, so its body status
does not equal the HTTP status code as the claim requires of every
response. -/
theorem claim8_counterexample :
    AdminMiddleware "s3cret" (some "wrong") =
      some ⟨401, .rawPairs [("error", "Unauthorized"), ("message", "Invalid admin secret")],
            false⟩ ∧
    (AdminMiddleware "s3cret" (some "wrong")).map (fun r => bodyStatusField r.body) =
      some none ∧
    (AdminMiddleware "s3cret" (some "wrong")).map (fun r => r.httpStatus) = some 401 := by
  refine ⟨?_, ?_, ?_⟩ <;> decide

/-- Claim C8 as amended: every response produced through the envelope
helpers WriteJSON and WriteError has a body status field equal to the
HTTP status code; WriteJSON responses carry no error field and emit no
server-side error log, WriteError responses carry no data field and are
logged server-side. The admin-secret middleware's 401 rejection is
exempt, being written directly as a raw error/message object. -/
theorem claim8 (status : Nat) (message errMsg : String) (data : Option String) :
    (WriteJSON status message data).httpStatus = status ∧
    bodyStatusField (WriteJSON status message data).body = some status ∧
    bodyErrorField (WriteJSON status message data).body = none ∧
    (WriteJSON status message data).loggedServerSide = false ∧
    (WriteError status message errMsg).httpStatus = status ∧
    bodyStatusField (WriteError status message errMsg).body = some status ∧
    bodyDataField (WriteError status message errMsg).body = none ∧
    (WriteError status message errMsg).loggedServerSide = true :=
  ⟨rfl, rfl, rfl, rfl, rfl, rfl, rfl, rfl⟩

/-- A token issued with the expiry flag false carries no expiry claim
and is signed with the HMAC family over the configured secret. -/
theorem generateJWT_ok_no_expiry {actions : List String} {jwtSecret : String}
    {now : Time} {userID username role action : String} {t : Token}
    (h : GenerateJWT actions jwtSecret now userID username role action false = .ok t) :
    t.claims.expiresAt = none ∧ t.method = .hmac ∧ t.sigKey = jwtSecret ∧
    jwtSecret ≠ "" := by
  unfold GenerateJWT at h
  split at h
  · simp at h
  split at h
  · simp at h
  split at h
  · simp at h
  split at h
  · simp at h
  by_cases hsec : jwtSecret = ""
  · simp [hsec] at h
  · simp [hsec] at h
    subst h
    exact ⟨rfl, rfl, rfl, hsec⟩

/-- A well-signed token without an expiry claim validates at any time. -/
theorem validateJWT_no_expiry {jwtSecret : String} {t : Token}
    (hm : t.method = .hmac) (hk : t.sigKey = jwtSecret) (hs : jwtSecret ≠ "")
    (he : t.claims.expiresAt = none) :
    ∀ later : Time, ValidateJWT jwtSecret later t = .ok t.claims := by
  intro later
  unfold ValidateJWT
  simp [hm, hk, hs, he]

/-- Claim C10: both issuance endpoints call GenerateJWT with the expiry
flag false, so every token either endpoint hands out carries no expiry
claim and validates successfully at every later time; it is never
rejected as expired. -/
theorem claim10 (actions : List String) (jwtSecret : String) (now : Time) :
    (∀ (freshID : String) (token : Token),
      (GenerateAdminTokenHandler actions jwtSecret now freshID).data = some token →
      token.claims.expiresAt = none ∧
      ∀ later : Time, ValidateJWT jwtSecret later token = .ok token.claims) ∧
    (∀ (db : DB) (freshRowID : String) (body : Option GenerateTokenBody)
        (row : AuthToken) (token : Token),
      (GenerateTokenHandler actions jwtSecret now db freshRowID body).1.data =
        some row →
      row.token = some token →
      token.claims.expiresAt = none ∧
      ∀ later : Time, ValidateJWT jwtSecret later token = .ok token.claims) := by
  constructor
  · intro freshID token h
    unfold GenerateAdminTokenHandler at h
    split at h
    · simp [respError] at h
    · rename_i t hg
      simp only [respJSON, Option.some.injEq] at h
      subst h
      obtain ⟨he, hm, hk, hs⟩ := generateJWT_ok_no_expiry hg
      exact ⟨he, validateJWT_no_expiry hm hk hs he⟩
  · intro db freshRowID body row token hrow htok
    unfold GenerateTokenHandler at hrow
    split at hrow
    · simp [respError] at hrow
    · split at hrow
      · simp [respError] at hrow
      · split at hrow
        · simp [respError] at hrow
        · split at hrow
          · simp [respError] at hrow
          · split at hrow
            · simp [respError] at hrow
            · split at hrow
              · simp [respError] at hrow
              · rename_i customer hcust
                split at hrow
                · simp [respError] at hrow
                · rename_i t hg
                  simp only [respJSON, Option.some.injEq] at hrow
                  subst hrow
                  simp only [Option.some.injEq] at htok
                  subst htok
                  obtain ⟨he, hm, hk, hs⟩ := generateJWT_ok_no_expiry hg
                  exact ⟨he, validateJWT_no_expiry hm hk hs he⟩

/-- The admin token the admin issuance endpoint produces for the fresh
id uuidD under the secret s3cret at time 0. -/
def tokAdminGen : Token :=
  { claims :=
    { userID := uuidD, username := "Admin", role := "admin", action := "ADMIN"
      issuer := "Rubicon BMS", issuedAt := 0, expiresAt := none }
    method := .hmac, sigKey := "s3cret" }

/-- The user token the user issuance endpoint produces for customer
uuidB (Acme Co) and action READ under the secret s3cret at time 0. -/
def tokUserGen : Token :=
  { claims :=
    { userID := uuidB, username := "Acme Co", role := "user", action := "READ"
      issuer := "Rubicon BMS", issuedAt := 0, expiresAt := none }
    method := .hmac, sigKey := "s3cret" }

/-- Witness for claim C10: both endpoints evaluated at concrete inputs;
the tokens they hand out carry no expiry claim and still validate at
the much later times 999999 and 888888. -/
theorem claim10_witness :
    tokAdminGen.claims.expiresAt = none ∧
    ValidateJWT "s3cret" 999999 tokAdminGen = .ok tokAdminGen.claims ∧
    tokUserGen.claims.expiresAt = none ∧
    ValidateJWT "s3cret" 888888 tokUserGen = .ok tokUserGen.claims :=
  ⟨((claim10 ["ADMIN", "READ"] "s3cret" 0).1 uuidD tokAdminGen (by decide)).1,
   ((claim10 ["ADMIN", "READ"] "s3cret" 0).1 uuidD tokAdminGen (by decide)).2 999999,
   ((claim10 ["ADMIN", "READ"] "s3cret" 0).2 dbWitC5 uuidD (some ⟨uuidB, "READ"⟩)
      ⟨uuidD, uuidB, "READ", some tokUserGen⟩ tokUserGen (by decide) (by decide)).1,
   ((claim10 ["ADMIN", "READ"] "s3cret" 0).2 dbWitC5 uuidD (some ⟨uuidB, "READ"⟩)
      ⟨uuidD, uuidB, "READ", some tokUserGen⟩ tokUserGen (by decide) (by decide)).2
     888888⟩

end DevicesApi
